import Mathlib

/-!
Shallow embedding of `spigot_creator.py` (class `SpigotServerCreator`) and
proofs about its artifact-acquisition and provisioning pipeline.

Filesystem state, network activity and subprocess launches are made explicit:
directories and files become `Bool` flags or association lists, each network
request or subprocess launch increments a counter in a `Trace`, and Python
exceptions become `Except`/explicit result fields.  Machine-level details
(float timestamps, bytes on disk) are modelled with `Int`/`Nat`.
-/

deriving instance DecidableEq for Except

namespace SpigotCreator

/-! ## JSON values and the configuration store

`load_config` / `update_config` deal in values produced by Python's `json`
module.  `JValue` models the scalar JSON values the configuration uses
(booleans, integers, strings, null); float literals, arrays and objects are
outside this model.  A configuration is an association list from keys to
values, modelling a Python dict; `json.dump` followed by `json.load` is
modelled as the identity on such a map, which is faithful since the module
round-trips its own output for these values. -/

inductive JValue where
  | null
  | jbool (b : Bool)
  | jnum (n : Int)
  | jstr (s : String)
  deriving Repr, DecidableEq

abbrev Config := List (String × JValue)

def containsKey (c : Config) (k : String) : Bool :=
  c.any (fun p => p.1 == k)

def lookupKey (c : Config) (k : String) : Option JValue :=
  (c.find? (fun p => p.1 == k)).map Prod.snd

/-- The `default_config` dict of `load_config` (source lines 61-70): eight
keys with their default values. -/
def default_config : Config :=
  [("java_path", .jstr "java"),
   ("default_memory", .jstr "2G"),
   ("default_port", .jnum 25565),
   ("buildtools_update_interval", .jnum 86400),
   ("use_prebuilt_spigot", .jbool true),
   ("parallel_downloads", .jbool true),
   ("skip_java_check", .jbool false),
   ("quick_mode", .jbool false)]

/-- The loop `for key, value in default_config.items(): if key not in config:
config[key] = value` (source lines 77-79): every default key missing from the
loaded dict is added with its default value. -/
def fill_defaults_from (ds : Config) (c : Config) : Config :=
  ds.foldl (fun acc kv => if containsKey acc kv.1 then acc else acc ++ [kv]) c

def fill_defaults (c : Config) : Config :=
  fill_defaults_from default_config c

/-- Result of `load_config`: the returned dict, and whether the default
configuration was written back to disk. -/
structure LoadResult where
  config : Config
  persisted : Bool
  deriving Repr, DecidableEq

/-- `load_config` (source lines 59-88).  The input models the state of the
config file: `none` = file absent; `some none` = file exists but `json.load`
raised (the `except` prints a warning and falls through); `some (some c)` =
file readable with contents `c`.  In the two failure cases the default
configuration is written to disk and returned. -/
def load_config : Option (Option Config) → LoadResult
  | some (some c) => ⟨fill_defaults c, false⟩
  | some none => ⟨default_config, true⟩
  | none => ⟨default_config, true⟩

/-! ### `json.loads` on scalar documents, and `update_config` -/

def digitsToNat (cs : List Char) : Nat :=
  cs.foldl (fun acc c => acc * 10 + (c.toNat - 48)) 0

/-- A JSON integer literal body: nonempty digits, no leading zero except the
literal `0` itself. -/
def validIntDigits : List Char → Bool
  | [] => false
  | ['0'] => true
  | c :: rest => c.isDigit && c != '0' && rest.all Char.isDigit

def parseIntLit (cs : List Char) : Option JValue :=
  match cs with
  | '-' :: rest =>
      if validIntDigits rest then some (.jnum (-(digitsToNat rest : Int))) else none
  | _ => if validIntDigits cs then some (.jnum (digitsToNat cs)) else none

/-- Body of a JSON string literal after the opening quote: everything up to a
closing quote, with no interior quote or backslash (escape sequences are
outside this model). -/
def parseStrBody (cs : List Char) : Option JValue :=
  if cs.getLast? = some '"' then
    let body := cs.dropLast
    if body.all (fun c => c != '"' && c != '\\') then some (.jstr (String.mk body))
    else none
  else none

/-- Model of Python `json.loads` restricted to scalar JSON documents:
`null`, `true`, `false`, optionally signed integer literals, and quoted
strings without escapes.  Any other input is a parse failure
(`json.JSONDecodeError`), which `update_config` maps to storing the raw
string. -/
def json_loads (s : String) : Option JValue :=
  if s = "null" then some .null
  else if s = "true" then some (.jbool true)
  else if s = "false" then some (.jbool false)
  else match s.toList with
    | '"' :: rest => parseStrBody rest
    | cs => parseIntLit cs

/-- `self.config[key] = parsed_value` on the dict model: replace the value if
the key is present, else append the pair. -/
def setKey (c : Config) (k : String) (v : JValue) : Config :=
  if containsKey c k then c.map (fun p => if p.1 == k then (k, v) else p)
  else c ++ [(k, v)]

/-- In-memory configuration plus the persisted `config.json` contents. -/
structure ConfigStore where
  config : Config
  file : Config
  deriving Repr, DecidableEq

/-- `update_config` (source lines 875-887): parse the value string with
`json.loads`, falling back to the literal string on `JSONDecodeError`; store
it under the key and dump the whole dict to the config file. -/
def update_config (st : ConfigStore) (key value : String) : ConfigStore :=
  let parsed_value := (json_loads value).getD (.jstr value)
  let c := setKey st.config key parsed_value
  ⟨c, c⟩

/-- Reading the configuration back (`config show` in a fresh invocation):
`load_config` on the persisted file. -/
def read_back (st : ConfigStore) : Config :=
  (load_config (some (some st.file))).config

/-! ## Toolchain staleness (`should_update_buildtools`) -/

/-- The effective update interval (source lines 169-172): the configured
interval, multiplied by 7 when quick mode is enabled. -/
def update_interval (quick_mode : Bool) (buildtools_update_interval : Int) : Int :=
  if quick_mode then buildtools_update_interval * 7 else buildtools_update_interval

/-- `should_update_buildtools` (source lines 162-175): missing toolchain is
always stale; otherwise stale iff `now - st_mtime > update_interval`. -/
def should_update_buildtools (buildtools_exists : Bool) (quick_mode : Bool)
    (buildtools_update_interval : Int) (now st_mtime : Int) : Bool :=
  if !buildtools_exists then true
  else decide (now - st_mtime > update_interval quick_mode buildtools_update_interval)

/-! ## Pre-built spigot download (`try_download_prebuilt_spigot`) -/

/-- What one `download_file_parallel(url, spigot_jar, ...)` attempt does:
either it raises (transport error, non-success status), or it writes a file
of the given size. -/
inductive DownloadOutcome where
  | err
  | ok (size : Nat)
  deriving Repr, DecidableEq

/-- The acceptance check of source line 292: the downloaded candidate is kept
iff its size strictly exceeds 1 MiB. -/
def validated : DownloadOutcome → Bool
  | .err => false
  | .ok size => decide (size > 1024 * 1024)

/-- Result of the URL loop: index of the accepted URL (if any), number of
URLs attempted, whether the candidate jar is on disk afterwards, and the
candidate-jar presence after each attempted URL (the per-step disk trace:
a rejected or failed candidate is unlinked before the next URL). -/
structure PrebuiltResult where
  result : Option Nat
  attempts : Nat
  jar_on_disk : Bool
  trace_disk : List Bool
  deriving Repr, DecidableEq

/-- The `for url in all_urls` loop of source lines 287-303: download; on
success keep the jar and return iff it exceeds 1 MiB, else unlink and
continue; on exception unlink any partial file and continue; `None` after the
loop.  Modelled with no pre-existing candidate file. -/
def try_download_prebuilt_loop : List DownloadOutcome → PrebuiltResult
  | [] => ⟨none, 0, false, []⟩
  | o :: rest =>
    if validated o then ⟨some 0, 1, true, [true]⟩
    else
      let r := try_download_prebuilt_loop rest
      ⟨r.result.map (· + 1), r.attempts + 1, r.jar_on_disk, false :: r.trace_disk⟩

/-- `try_download_prebuilt_spigot` (source lines 263-303): returns `None`
immediately when `use_prebuilt_spigot` is disabled, else runs the URL loop. -/
def try_download_prebuilt_spigot (use_prebuilt_spigot : Bool)
    (outcomes : List DownloadOutcome) : PrebuiltResult :=
  if use_prebuilt_spigot then try_download_prebuilt_loop outcomes
  else ⟨none, 0, false, []⟩

/-- Index of the first URL whose download succeeds with a size above 1 MiB
(the specification of the loop, for comparison with the embedded loop). -/
def first_validated : List DownloadOutcome → Option Nat
  | [] => none
  | o :: rest => if validated o then some 0 else (first_validated rest).map (· + 1)

/-! ## Toolchain download with backup/restore (`download_buildtools`) -/

/-- Presence of `BuildTools.jar` and `BuildTools.jar.backup` in the cache
directory.  A partially downloaded (hence unusable) file does not count as
present. -/
structure ToolchainState where
  buildtools : Bool
  backup : Bool
  deriving Repr, DecidableEq

/-- Result of `download_buildtools`: `returned = true` means the call
returned `buildtools_path`, `false` means it raised. -/
structure DownloadBuildtoolsResult where
  returned : Bool
  state : ToolchainState
  deriving Repr, DecidableEq

/-- `download_buildtools` (source lines 305-335).  Fast path: present, not
forced, not stale.  Refresh path: an existing binary is first moved to the
backup name; then the download either succeeds (new binary in place, backup
left behind), or fails, in which case an existing backup is moved back and
the path is still returned; with no backup the call raises. -/
def download_buildtools (st : ToolchainState) (force_update : Bool)
    (stale : Bool) (download_ok : Bool) : DownloadBuildtoolsResult :=
  if st.buildtools && !force_update && !stale then ⟨true, st⟩
  else
    let st1 : ToolchainState := if st.buildtools then ⟨false, true⟩ else st
    if download_ok then ⟨true, ⟨true, st1.backup⟩⟩
    else if st1.backup then ⟨true, ⟨true, false⟩⟩
    else ⟨false, st1⟩

/-! ## Bukkit and vanilla downloads -/

/-- `SUPPORTED_BUKKIT_VERSIONS` (source lines 337-352). -/
def SUPPORTED_BUKKIT_VERSIONS : List String :=
  ["1.21.4", "1.21.3", "1.21.2", "1.21.1", "1.21",
   "1.20.6", "1.20.5", "1.20.4", "1.20.3", "1.20.2", "1.20.1", "1.20",
   "1.19.4", "1.19.3", "1.19.2", "1.19.1", "1.19",
   "1.18.2", "1.18.1", "1.18",
   "1.17.1", "1.17",
   "1.16.5", "1.16.4", "1.16.3", "1.16.2", "1.16.1",
   "1.15.2", "1.15.1", "1.15",
   "1.14.4", "1.14.3", "1.14.2", "1.14.1", "1.14",
   "1.13.2", "1.13.1", "1.13",
   "1.12.2", "1.12.1", "1.12",
   "1.11.2", "1.11.1", "1.11",
   "1.10.2", "1.10",
   "1.9.4", "1.9.2", "1.9",
   "1.8.8"]

/-- Result of a jar-acquisition call together with the number of network
requests it performed. -/
structure FetchResult where
  result : Except String String
  network : Nat
  deriving Repr, DecidableEq

/-- `download_bukkit` (source lines 354-373): unsupported versions raise with
no network; otherwise `requests.head(url)` is issued (one network request)
BEFORE the cache check; a non-200 status raises; only then is the cached jar
test `if not bukkit_jar.exists()` performed, and a missing jar downloaded. -/
def download_bukkit (version : String) (cache_has_bukkit : Bool)
    (head_status : Nat) (download_ok : Bool) : FetchResult :=
  if !(SUPPORTED_BUKKIT_VERSIONS.contains version) then
    ⟨.error "Bukkit/CraftBukkit ist fuer diese Version nicht verfuegbar", 0⟩
  else if head_status != 200 then
    ⟨.error "Bukkit/CraftBukkit JAR not found", 1⟩
  else if cache_has_bukkit then ⟨.ok "bukkit jar (cached)", 1⟩
  else if download_ok then ⟨.ok "bukkit jar (downloaded)", 2⟩
  else ⟨.error "Error during download", 2⟩

/-- `download_vanilla` (source lines 375-384) with `get_vanilla_server_url`
(lines 400-412): the Mojang version manifest is fetched (one request) and,
when the version is found, the per-version descriptor too (a second request),
all BEFORE the cache check `if not vanilla_jar.exists()`. -/
def download_vanilla (version_in_manifest : Bool) (cache_has_vanilla : Bool)
    (download_ok : Bool) : FetchResult :=
  if !version_in_manifest then
    ⟨.error "Could not find download URL for vanilla version", 1⟩
  else if cache_has_vanilla then ⟨.ok "vanilla jar (cached)", 2⟩
  else if download_ok then ⟨.ok "vanilla jar (downloaded)", 3⟩
  else ⟨.error "Error during download", 3⟩

/-! ## The optimized spigot build (`build_spigot_optimized`) -/

/-- Network requests and subprocess launches performed by a call. -/
structure Trace where
  network : Nat
  subproc : Nat
  deriving Repr, DecidableEq

/-- Outcome of the BuildTools subprocess section inside the scratch
workspace. -/
inductive BuildOutcome where
  | success
  | buildFailed (code : Int)
  | timeout
  | jarMissing
  deriving Repr, DecidableEq

/-- Result of `build_spigot_optimized`: the returned path (or raised
exception message), the activity trace, and whether the scratch workspace
still exists on disk after the call returns. -/
structure BuildResult where
  result : Except String String
  trace : Trace
  workspace_exists : Bool
  deriving Repr, DecidableEq

/-- Network requests performed by `download_buildtools`: none on the fast
path, one download attempt otherwise. -/
def download_buildtools_network (st : ToolchainState) (force_update stale : Bool) : Nat :=
  if st.buildtools && !force_update && !stale then 0 else 1

/-- Models `with tempfile.TemporaryDirectory() as temp_dir` (source line
435): the body runs with the workspace present; `__exit__` removes the
workspace on every exit path, normal return and exception alike, before the
enclosing call returns. -/
def with_build_workspace (body : Except String String) : Except String String × Bool :=
  (body, false)

/-- `build_spigot_optimized` (source lines 414-512).
Fast path: cached `spigot-{version}.jar` with `force_rebuild` unset is
returned at once.  Otherwise the pre-built URLs are tried (one network
request per attempted URL); on success that jar is returned.  Otherwise the
Java check runs (one subprocess unless `skip_java_check`), failing with the
unwrapped message `Java check failed`; then `download_buildtools` (raising
unwrapped on failure); then the BuildTools subprocess runs in a scratch
workspace: a timeout raises `BuildTools timeout - build took too long`, any
other failure is wrapped as `Error when creating spigot: ...` (path detail of
the original messages elided). -/
def build_spigot_optimized (cache_has_spigot force_rebuild use_prebuilt_spigot : Bool)
    (prebuilt_outcomes : List DownloadOutcome)
    (skip_java_check java_ok : Bool)
    (tc : ToolchainState) (tc_stale tc_download_ok : Bool)
    (outcome : BuildOutcome) : BuildResult :=
  if cache_has_spigot && !force_rebuild then
    ⟨.ok "spigot jar (cached)", ⟨0, 0⟩, false⟩
  else
    let pre := try_download_prebuilt_spigot use_prebuilt_spigot prebuilt_outcomes
    if pre.result.isSome then
      ⟨.ok "spigot jar (prebuilt)", ⟨pre.attempts, 0⟩, false⟩
    else
      let javaProcs := if skip_java_check then 0 else 1
      if !java_ok then
        ⟨.error "Java check failed", ⟨pre.attempts, javaProcs⟩, false⟩
      else
        let bt := download_buildtools tc false tc_stale tc_download_ok
        let netBt := download_buildtools_network tc false tc_stale
        if !bt.returned then
          ⟨.error "Error downloading BuildTools.jar", ⟨pre.attempts + netBt, javaProcs⟩, false⟩
        else
          let run := with_build_workspace
            (match outcome with
             | .success => .ok "spigot jar (built)"
             | .buildFailed code =>
                 .error ("Error when creating spigot: BuildTools failed with exit code: "
                   ++ toString code)
             | .timeout => .error "BuildTools timeout - build took too long"
             | .jarMissing => .error "Error when creating spigot: Spigot JAR not found")
          ⟨run.1, ⟨pre.attempts + netBt, javaProcs + 1⟩, run.2⟩

/-! ## Server provisioning (`create_server`) and removal (`remove_server`) -/

/-- Result of `create_server`: returned-or-raised, whether the target
directory exists afterwards, whether a pre-existing directory was deleted,
and whether the scaffold files (properties, eula, scripts, metadata, readme,
subdirectories) were written into the target directory. -/
structure CreateResult where
  result : Except String Unit
  dir_exists : Bool
  preexisting_removed : Bool
  scaffold_written : Bool
  deriving Repr, DecidableEq

/-- `create_server` (source lines 689-809), directory-handling skeleton.
With an existing target and `force_overwrite` set, `fast_rmtree` removes the
directory (raising on failure); the code then calls
`list(server_dir.iterdir())` on the now-deleted directory, which raises
`FileNotFoundError`, caught by `except Exception` and re-raised.  With
`force_overwrite` unset an existing directory is NOT an error: the code falls
through to `mkdir(parents=True, exist_ok=True)` and provisions into it,
keeping an existing jar (`if not server_jar.exists()`) and overwriting the
scaffold files.  `jar_ok` abstracts the jar acquisition of lines 764-781;
individual scaffold-task failures are caught and printed inside
`create_files_parallel` and do not fail the call. -/
def create_server (dir_exists force_overwrite rmtree_ok jar_ok : Bool) : CreateResult :=
  if dir_exists && force_overwrite then
    if !rmtree_ok then ⟨.error "Force removal failed", true, false, false⟩
    else ⟨.error "FileNotFoundError from server_dir.iterdir", false, true, false⟩
  else
    if !jar_ok then ⟨.error "Failed to get JAR", true, false, false⟩
    else ⟨.ok (), true, false, true⟩

/-- Result of `remove_server`: the returned boolean, the servers directory
contents afterwards, and whether an exception escaped the call. -/
structure RemoveResult where
  removed : Bool
  fs : List String
  raised : Bool
  deriving Repr, DecidableEq

/-- `remove_server` (source lines 829-849): a missing server directory prints
a message and returns `False`; without `force` a non-confirming answer
cancels; `fast_rmtree` failure is caught and `False` returned. -/
def remove_server (fs : List String) (name : String) (force confirm rmtree_ok : Bool) :
    RemoveResult :=
  if !(fs.contains name) then ⟨false, fs, false⟩
  else if !force && !confirm then ⟨false, fs, false⟩
  else if rmtree_ok then ⟨true, fs.erase name, false⟩
  else ⟨false, fs, false⟩

/-! ## Helper lemmas on the configuration dict model -/

theorem lookupKey_nil (k : String) : lookupKey [] k = none := rfl

theorem containsKey_cons (a : String × JValue) (c : Config) (k : String) :
    containsKey (a :: c) k = ((a.1 == k) || containsKey c k) := by
  simp [containsKey]

theorem lookupKey_cons (a : String × JValue) (c : Config) (k : String) :
    lookupKey (a :: c) k = if a.1 == k then some a.2 else lookupKey c k := by
  by_cases h : a.1 == k
  · simp [lookupKey, List.find?_cons_of_pos _ h, h]
  · simp [lookupKey, List.find?_cons_of_neg _ h, h]

theorem lookupKey_isSome (c : Config) (k : String) :
    (lookupKey c k).isSome = containsKey c k := by
  induction c with
  | nil => rfl
  | cons a t ih =>
    rw [lookupKey_cons, containsKey_cons]
    by_cases h : a.1 == k <;> simp [h, ih]

theorem lookupKey_eq_none (c : Config) (k : String) (h : containsKey c k = false) :
    lookupKey c k = none := by
  have := lookupKey_isSome c k
  rw [h] at this
  exact Option.not_isSome_iff_eq_none.mp (by simp [this])

theorem containsKey_append (c d : Config) (k : String) :
    containsKey (c ++ d) k = (containsKey c k || containsKey d k) := by
  simp [containsKey]

theorem lookupKey_append_left (c d : Config) (k : String)
    (h : containsKey c k = true) :
    lookupKey (c ++ d) k = lookupKey c k := by
  induction c with
  | nil => simp [containsKey] at h
  | cons a t ih =>
    rw [containsKey_cons] at h
    by_cases ha : a.1 == k
    · simp [lookupKey_cons, ha]
    · simp [ha] at h
      simp [lookupKey_cons, ha, ih h]

theorem lookupKey_append_right (c d : Config) (k : String)
    (h : containsKey c k = false) :
    lookupKey (c ++ d) k = lookupKey d k := by
  induction c with
  | nil => rfl
  | cons a t ih =>
    rw [containsKey_cons] at h
    by_cases ha : a.1 == k
    · simp [ha] at h
    · simp [ha] at h
      simp [lookupKey_cons, ha, ih h]

theorem fill_defaults_from_cons (kv : String × JValue) (ds c : Config) :
    fill_defaults_from (kv :: ds) c
      = fill_defaults_from ds (if containsKey c kv.1 then c else c ++ [kv]) := by
  simp [fill_defaults_from]

theorem containsKey_fill_defaults_from (ds c : Config) (k : String)
    (h : containsKey c k = true) :
    containsKey (fill_defaults_from ds c) k = true := by
  induction ds generalizing c with
  | nil => exact h
  | cons kv ds ih =>
    rw [fill_defaults_from_cons]
    by_cases hc : containsKey c kv.1
    · simp [hc]; exact ih c h
    · simp [hc]
      exact ih _ (by rw [containsKey_append, h]; rfl)

theorem lookupKey_fill_defaults_from_of_contains (ds c : Config) (k : String)
    (h : containsKey c k = true) :
    lookupKey (fill_defaults_from ds c) k = lookupKey c k := by
  induction ds generalizing c with
  | nil => rfl
  | cons kv ds ih =>
    rw [fill_defaults_from_cons]
    by_cases hc : containsKey c kv.1
    · simp [hc]; exact ih c h
    · simp [hc]
      rw [ih _ (by rw [containsKey_append, h]; rfl)]
      exact lookupKey_append_left c [kv] k h

theorem lookupKey_fill_defaults_from_of_not_contains (ds c : Config) (k : String)
    (h : containsKey c k = false) :
    lookupKey (fill_defaults_from ds c) k = lookupKey ds k := by
  induction ds generalizing c with
  | nil =>
    show lookupKey c k = lookupKey [] k
    rw [lookupKey_eq_none c k h]; rfl
  | cons kv ds ih =>
    rw [fill_defaults_from_cons, lookupKey_cons]
    by_cases hk : kv.1 = k
    · have hc : ¬ containsKey c kv.1 = true := by rw [hk, h]; simp
      rw [if_neg hc, if_pos (show (kv.1 == k) = true by simp [hk])]
      have hmem : containsKey (c ++ [kv]) k = true := by
        rw [containsKey_append, containsKey_cons]
        simp [hk]
      rw [lookupKey_fill_defaults_from_of_contains ds (c ++ [kv]) k hmem,
        lookupKey_append_right c [kv] k h, lookupKey_cons]
      simp [hk]
    · rw [if_neg (show ¬ (kv.1 == k) = true by simp [hk])]
      by_cases hc : containsKey c kv.1 = true
      · rw [if_pos hc]; exact ih c h
      · rw [if_neg hc]
        refine ih (c ++ [kv]) ?_
        rw [containsKey_append, h, containsKey_cons]
        simp [hk, containsKey]

theorem containsKey_map_set (c : Config) (k : String) (v : JValue)
    (hc : containsKey c k = true) :
    containsKey (c.map (fun p => if p.1 == k then (k, v) else p)) k = true := by
  induction c with
  | nil => simp [containsKey] at hc
  | cons a t ih =>
    rw [containsKey_cons] at hc
    by_cases ha : a.1 = k
    · simp [containsKey_cons, ha]
    · simp [ha] at hc
      simpa [containsKey_cons, ha] using ih hc

theorem lookupKey_map_set (c : Config) (k : String) (v : JValue)
    (hc : containsKey c k = true) :
    lookupKey (c.map (fun p => if p.1 == k then (k, v) else p)) k = some v := by
  induction c with
  | nil => simp [containsKey] at hc
  | cons a t ih =>
    rw [containsKey_cons] at hc
    by_cases ha : a.1 = k
    · simp [lookupKey_cons, ha]
    · simp [ha] at hc
      simpa [lookupKey_cons, ha] using ih hc

theorem containsKey_setKey (c : Config) (k : String) (v : JValue) :
    containsKey (setKey c k v) k = true := by
  unfold setKey
  by_cases hc : containsKey c k = true
  · rw [if_pos hc]; exact containsKey_map_set c k v hc
  · rw [if_neg hc, containsKey_append, containsKey_cons]
    simp

theorem lookupKey_setKey (c : Config) (k : String) (v : JValue) :
    lookupKey (setKey c k v) k = some v := by
  unfold setKey
  by_cases hc : containsKey c k = true
  · rw [if_pos hc]; exact lookupKey_map_set c k v hc
  · have hc' : containsKey c k = false := by simpa using hc
    rw [if_neg hc, lookupKey_append_right c [(k, v)] k hc', lookupKey_cons]
    simp

theorem load_config_readable_config (c : Config) :
    (load_config (some (some c))).config = fill_defaults c := rfl

theorem fill_defaults_def (c : Config) :
    fill_defaults c = fill_defaults_from default_config c := rfl

theorem read_back_def (s : ConfigStore) : read_back s = fill_defaults s.file := by
  unfold read_back
  rw [load_config_readable_config]

theorem update_config_file (s : ConfigStore) (k v : String) :
    (update_config s k v).file = setKey s.config k ((json_loads v).getD (.jstr v)) := rfl

/-! ## Helper lemma: the pre-built URL loop against its specification -/

theorem try_download_prebuilt_loop_eq (outcomes : List DownloadOutcome) :
    try_download_prebuilt_loop outcomes =
      match first_validated outcomes with
      | some i => ⟨some i, i + 1, true, List.replicate i false ++ [true]⟩
      | none => ⟨none, outcomes.length, false, List.replicate outcomes.length false⟩ := by
  induction outcomes with
  | nil => rfl
  | cons o rest ih =>
    by_cases h : validated o
    · simp [try_download_prebuilt_loop, first_validated, h]
    · rw [try_download_prebuilt_loop]
      simp only [h, Bool.false_eq_true, if_false]
      rw [ih, first_validated]
      simp only [h, Bool.false_eq_true, if_false]
      cases hf : first_validated rest <;>
        simp [List.replicate_succ, List.length_cons]

/-! ## Claim theorems -/

/-- Claim C1, counterexample: with an existing target directory and the
overwrite flag unset, `create_server` does NOT fail with any
already-exists error — it succeeds, does not delete the pre-existing
directory, and writes the scaffold files into it (so the directory is also
not left untouched). -/
theorem create_server_existing_no_force_succeeds :
    (create_server true false true true).result = .ok ()
    ∧ (create_server true false true true).preexisting_removed = false
    ∧ (create_server true false true true).scaffold_written = true :=
  ⟨rfl, rfl, rfl⟩

/-- Claim C1, amended: with the overwrite flag unset, `create_server`
succeeds whether or not the target directory exists (absent other failures):
an existing directory is reused in place — never deleted — and the scaffold
files are written into it; a non-existing target is created and provisioned. -/
theorem create_server_no_overwrite_provisions_in_place (dir_exists rmtree_ok : Bool) :
    create_server dir_exists false rmtree_ok true = ⟨.ok (), true, false, true⟩ := by
  cases dir_exists <;> rfl

/-- Claim C2, counterexample: with a cached bukkit jar (and a cached vanilla
jar), the acquisition still performs network requests — `download_bukkit`
issues a HEAD request and `download_vanilla` fetches the Mojang manifest
before the cache check — refuting the zero-network property for these two
artifact types. -/
theorem cached_bukkit_network_nonzero :
    (download_bukkit "1.21.4" true 200 true).network ≠ 0
    ∧ (download_bukkit "1.21.4" true 200 true).result = .ok "bukkit jar (cached)"
    ∧ (download_vanilla true true true).network ≠ 0 := by
  refine ⟨by decide, by decide, by decide⟩

/-- Claim C2, amended: the cache fast path holds for the spigot type —
`build_spigot_optimized` with a cached jar and `force_rebuild` unset returns
it with zero network requests and zero subprocess launches — while
`download_bukkit` returns a cached jar only after one HEAD request and
`download_vanilla` only after two manifest requests. -/
theorem cached_artifact_fast_path (use_prebuilt_spigot : Bool)
    (pre : List DownloadOutcome) (skipj javaOk : Bool) (tc : ToolchainState)
    (stale dlOk dlb dlv : Bool) (oc : BuildOutcome) :
    build_spigot_optimized true false use_prebuilt_spigot pre skipj javaOk tc stale dlOk oc
      = ⟨.ok "spigot jar (cached)", ⟨0, 0⟩, false⟩
    ∧ download_bukkit "1.21.4" true 200 dlb = ⟨.ok "bukkit jar (cached)", 1⟩
    ∧ download_vanilla true true dlv = ⟨.ok "vanilla jar (cached)", 2⟩ :=
  ⟨rfl, rfl, rfl⟩

/-- Claim C3, counterexample: when every strategy fails (all four pre-built
URLs and the BuildTools build), the raised error is identical to the one
raised when no pre-built URL was attempted at all, and is a single wrapped
message about the final build failure — not an aggregate with one entry per
attempted strategy. -/
theorem all_fail_error_ignores_prebuilt_failures :
    (build_spigot_optimized false false true [.err, .err, .err, .err] true true ⟨true, false⟩
        false true (.buildFailed 1)).result
      = (build_spigot_optimized false false true [] true true ⟨true, false⟩
        false true (.buildFailed 1)).result
    ∧ (build_spigot_optimized false false true [.err, .err, .err, .err] true true ⟨true, false⟩
        false true (.buildFailed 1)).result
      = .error "Error when creating spigot: BuildTools failed with exit code: 1" :=
  ⟨rfl, rfl⟩

/-- Claim C3, amended: when every strategy fails, the operation raises a
single exception wrapping only the final build strategy's failure; the
per-URL failures of the pre-built strategy are silently discarded
(`try_download_prebuilt_spigot` returns `None`), so the error does not
depend on them at all. -/
theorem all_fail_single_wrapped_error (outcomes : List DownloadOutcome)
    (h : first_validated outcomes = none) (code : Int) (skipj : Bool) :
    (build_spigot_optimized false false true outcomes skipj true ⟨true, false⟩ false true
        (.buildFailed code)).result
      = .error ("Error when creating spigot: BuildTools failed with exit code: "
          ++ toString code) := by
  have hp : (try_download_prebuilt_spigot true outcomes).result = none := by
    show (try_download_prebuilt_loop outcomes).result = none
    rw [try_download_prebuilt_loop_eq outcomes, h]
  simp [build_spigot_optimized, hp, download_buildtools, with_build_workspace]

/-- Witness for the amended C3 theorem at a concrete failing run. -/
theorem all_fail_single_wrapped_error_witness :
    (build_spigot_optimized false false true [.err, .err] true true ⟨true, false⟩ false true
        (.buildFailed 7)).result
      = .error ("Error when creating spigot: BuildTools failed with exit code: "
          ++ toString (7 : Int)) :=
  all_fail_single_wrapped_error [.err, .err] rfl 7 true

/-- Claim C4: the pre-built URL loop attempts the URLs in order, accepts a
candidate only when its size exceeds 1 MiB (`validated`), unlinks every
smaller or failed candidate before moving on (the disk trace is `false`
after every rejected attempt), and returns at the first validated success
without attempting any later URL (`attempts = i + 1`). -/
theorem prebuilt_urls_first_validated_success (outcomes : List DownloadOutcome) :
    try_download_prebuilt_spigot true outcomes =
      match first_validated outcomes with
      | some i => ⟨some i, i + 1, true, List.replicate i false ++ [true]⟩
      | none => ⟨none, outcomes.length, false, List.replicate outcomes.length false⟩ :=
  try_download_prebuilt_loop_eq outcomes

/-- Claim C5: on every exit path of `build_spigot_optimized` — cache hit,
pre-built success, Java-check failure, toolchain-download failure, build
success, build failure, timeout, or missing jar — the scratch workspace does
not exist after the call returns. -/
theorem build_workspace_never_outlives (cache_has_spigot force_rebuild use_prebuilt : Bool)
    (pre : List DownloadOutcome) (skipj javaOk : Bool) (tc : ToolchainState)
    (stale dlOk : Bool) (oc : BuildOutcome) :
    (build_spigot_optimized cache_has_spigot force_rebuild use_prebuilt pre
      skipj javaOk tc stale dlOk oc).workspace_exists = false := by
  unfold build_spigot_optimized
  dsimp only [with_build_workspace]
  repeat' split
  all_goals rfl

/-- Claim C6: staleness of the cached toolchain is decided by
`now - st_mtime > update_interval`, where the effective interval is the
configured one multiplied by exactly 7 in quick mode; and staleness is
antitone in the effective interval: stale at the larger effective interval
implies stale at the smaller one (equivalently, enlarging the interval never
turns a fresh entry stale). -/
theorem should_update_buildtools_staleness_antitone (q q' : Bool) (i i' now m : Int)
    (h : update_interval q i ≤ update_interval q' i') :
    update_interval true i = i * 7
    ∧ should_update_buildtools true q i now m
        = decide (now - m > update_interval q i)
    ∧ (should_update_buildtools true q' i' now m = true →
        should_update_buildtools true q i now m = true) := by
  refine ⟨rfl, rfl, ?_⟩
  intro hs
  simp only [should_update_buildtools, Bool.not_true, Bool.false_eq_true, if_false,
    decide_eq_true_eq] at hs ⊢
  generalize hA : update_interval q i = a at *
  generalize hB : update_interval q' i' = b at *
  omega

/-- Witness for the C6 theorem: configured interval 5 in quick mode
(effective 35) against configured 40 without quick mode. -/
theorem should_update_buildtools_staleness_antitone_witness :
    update_interval true 5 = 5 * 7
    ∧ should_update_buildtools true true 5 100 0
        = decide ((100 : Int) - 0 > update_interval true 5)
    ∧ (should_update_buildtools true false 40 100 0 = true →
        should_update_buildtools true true 5 100 0 = true) :=
  should_update_buildtools_staleness_antitone true false 5 40 100 0 (by decide)

/-- Claim C7: refreshing an existing BuildTools binary (`force_update` set or
the cached binary stale) with a failing download still returns a usable
toolchain path: the binary had been moved to the backup name first, and the
backup is moved back, so the previously cached binary is present again. -/
theorem download_buildtools_restores_backup (st : ToolchainState) (force stale : Bool)
    (hb : st.buildtools = true) (hrefresh : force = true ∨ stale = true) :
    download_buildtools st force stale false = ⟨true, ⟨true, false⟩⟩ := by
  obtain ⟨bt, bk⟩ := st
  cases hb
  rcases hrefresh with h | h <;> cases h
  · cases stale <;> cases bk <;> rfl
  · cases force <;> cases bk <;> rfl

/-- Witness for the C7 theorem: stale cached binary, failing download. -/
theorem download_buildtools_restores_backup_witness :
    download_buildtools ⟨true, false⟩ false true false = ⟨true, ⟨true, false⟩⟩ :=
  download_buildtools_restores_backup ⟨true, false⟩ false true rfl (Or.inr rfl)

/-- Claim C8: configuration values round-trip — `update_config` stores the
JSON-parsed value (falling back to the literal string when parsing fails),
and reading the configuration back through `load_config` yields exactly that
structured value; in particular setting `quick_mode` to the string `true`
round-trips as the boolean `true`. -/
theorem config_value_round_trip (st : ConfigStore) (key value : String) :
    lookupKey (read_back (update_config st key value)) key
      = some ((json_loads value).getD (.jstr value))
    ∧ json_loads "true" = some (.jbool true)
    ∧ lookupKey (read_back (update_config st "quick_mode" "true")) "quick_mode"
      = some (.jbool true) := by
  have main : ∀ (s : ConfigStore) (k v : String),
      lookupKey (read_back (update_config s k v)) k
        = some ((json_loads v).getD (.jstr v)) := by
    intro s k v
    rw [read_back_def, update_config_file, fill_defaults_def,
      lookupKey_fill_defaults_from_of_contains default_config _ k
        (containsKey_setKey s.config k ((json_loads v).getD (.jstr v))),
      lookupKey_setKey]
  refine ⟨main st key value, by decide, ?_⟩
  rw [main st "quick_mode" "true"]
  decide

/-- Claim C9: `load_config` always returns a configuration with a value for
every default key: a readable file keeps its own values and has missing keys
filled from the defaults; an absent or unreadable file yields the full
default configuration, persisted back to disk. -/
theorem load_config_fills_defaults (input : Option (Option Config)) :
    (∀ k, containsKey default_config k = true →
       containsKey (load_config input).config k = true)
    ∧ (∀ c k, input = some (some c) →
        (containsKey c k = true →
           lookupKey (load_config input).config k = lookupKey c k)
        ∧ (containsKey c k = false →
           lookupKey (load_config input).config k = lookupKey default_config k))
    ∧ ((input = none ∨ input = some none) →
        (load_config input).config = default_config
          ∧ (load_config input).persisted = true) := by
  refine ⟨?_, ?_, ?_⟩
  · intro k hk
    cases input with
    | none => exact hk
    | some f =>
      cases f with
      | none => exact hk
      | some c =>
        rw [load_config_readable_config, fill_defaults_def]
        by_cases hc : containsKey c k = true
        · exact containsKey_fill_defaults_from default_config c k hc
        · have hc' : containsKey c k = false := by simpa using hc
          rw [← lookupKey_isSome,
            lookupKey_fill_defaults_from_of_not_contains default_config c k hc',
            lookupKey_isSome]
          exact hk
  · intro c k hin
    subst hin
    rw [load_config_readable_config, fill_defaults_def]
    exact ⟨fun hc => lookupKey_fill_defaults_from_of_contains default_config c k hc,
      fun hc => lookupKey_fill_defaults_from_of_not_contains default_config c k hc⟩
  · intro hcase
    rcases hcase with h | h <;> subst h <;> exact ⟨rfl, rfl⟩

/-- Witness for the C9 theorem: with no config file, the full default
configuration is returned and persisted. -/
theorem load_config_fills_defaults_witness :
    (load_config none).config = default_config ∧ (load_config none).persisted = true :=
  (load_config_fills_defaults none).2.2 (Or.inl rfl)

/-- Claim C10: when the server directory does not exist, `remove_server`
returns `False`, raises nothing, and leaves the servers directory exactly as
it was, for every combination of the force flag, the confirmation answer,
and the deletion outcome. -/
theorem remove_server_missing_noop (fs : List String) (name : String)
    (force confirm rmtree_ok : Bool) (h : fs.contains name = false) :
    remove_server fs name force confirm rmtree_ok = ⟨false, fs, false⟩ := by
  unfold remove_server
  rw [h]
  rfl

/-- Witness for the C10 theorem on a concrete servers directory. -/
theorem remove_server_missing_noop_witness :
    remove_server ["Alpha"] "Beta" false false true = ⟨false, ["Alpha"], false⟩ :=
  remove_server_missing_noop ["Alpha"] "Beta" false false true (by decide)

end SpigotCreator
